import Mathlib

/-!
Shallow embedding of
`custom-metrics-stackdriver-adapter/pkg/adapter/provider/translator.go`:
the translator between the Custom Metrics API and the Stackdriver API.

Modelling conventions:
- Go `string` is Lean `String`; `fmt.Sprintf("%q", s)` is modelled by
  `goQuote` (quote-wrapping; exact for strings without escape-needing
  characters, which covers Kubernetes object names and UIDs).
- `v1.PodList` / `v1.NodeList` items are represented by the `ObjectMeta`
  fields the translator reads (name, namespace, uid).
- `resource.Quantity` (always built here from `NewQuantity` /
  `NewMilliQuantity` with `DecimalSI`) is modelled as an exact count of
  milli-units (`Int`); `Quantity.Add` on such values is exact addition.
- Go `float64` values arriving in `TypedValue.DoubleValue` are modelled as
  exact rationals; the Go conversion `int64(x)` truncates toward zero and
  is modelled by `goInt64OfRat`.
- `glog.Fatalf` terminates the process; the outcome type `TransResult`
  has a distinct `crash` constructor for it, separate from returned errors.
- The Stackdriver request builder (`createListTimeseriesRequest`) records
  the project path, the filter string, the query window endpoints taken
  from the injected clock (modelled as integer seconds rather than
  RFC-3339 text), the aligner name and the alignment period.
- Go map iteration order is irrelevant here: the aggregation map is only
  ever read back by key, so it is modelled as an association list.
-/

namespace Provider

/-- `fmt.Sprintf("%q", s)`: wrap in double quotes. -/
def goQuote (s : String) : String := "\"" ++ s ++ "\""

/-- Go `strings.TrimPrefix`: drop `pre` if it is a prefix, else return `s`. -/
def goTrimPre (s pre : String) : String :=
  if pre.isPrefixOf s then s.drop pre.length else s

/-- Go `int64(x)` conversion of a float64 value: truncation toward zero. -/
def goInt64OfRat (q : ℚ) : ℤ :=
  if q < 0 then -⌊-q⌋ else ⌊q⌋

/-- `config.GceConfig`: the fields the translator reads. -/
structure GceConfig where
  project : String
  cluster : String
  place : String  -- the Location field of the config
  metricsPre : String  -- the MetricsPrefix field of the config
deriving Repr, DecidableEq, Inhabited

/-- `schema.GroupResource`. -/
structure GroupResource where
  group : String
  resource : String
deriving Repr, DecidableEq, Inhabited

/-- `apierr.*` / `provider.*` error values returned by the translator. -/
inductive SdError where
  | badRequest : String → SdError
  | internalError : String → SdError
  | operationNotSupported : String → SdError
  | metricNotFound : GroupResource → String → SdError
deriving Repr, DecidableEq, Inhabited

/-- Outcome of a translator operation: a value, a returned error, or a
process abort via `glog.Fatalf`. -/
inductive TransResult (α : Type) where
  | ok : α → TransResult α
  | err : SdError → TransResult α
  | crash : String → TransResult α
deriving Repr, DecidableEq, Inhabited

/-- `metav1.ObjectMeta`: the fields the translator reads from pod and node
list items. -/
structure ObjectMeta where
  name : String
  nspace : String  -- the Namespace field
  uid : String
deriving Repr, DecidableEq, Inhabited

/-- `custom_metrics.ObjectReference`: the fields the translator sets. -/
structure ObjectReference where
  apiVersion : String
  kind : String
  name : String
  nspace : String  -- the Namespace field
deriving Repr, DecidableEq, Inhabited

/-- `custom_metrics.MetricValue`: the fields the translator sets. The
quantity is an exact count of milli-units. -/
structure MetricValue where
  describedObject : ObjectReference
  metricName : String
  timestamp : Int
  value : ℤ
deriving Repr, DecidableEq, Inhabited

/-- `stackdriver.TypedValue`: at most one of the two numeric variants. -/
structure TypedValue where
  int64Value : Option ℤ
  doubleValue : Option ℚ
deriving Repr, DecidableEq, Inhabited

/-- `stackdriver.Point`: only the value is read. -/
structure Point where
  value : TypedValue
deriving Repr, DecidableEq, Inhabited

/-- `stackdriver.MonitoredResource`: a type tag plus a label map. -/
structure MonitoredResource where
  type : String
  labels : List (String × String)
deriving Repr, DecidableEq, Inhabited

/-- `stackdriver.TimeSeries`: the fields the translator reads. -/
structure TimeSeries where
  resource : MonitoredResource
  points : List Point
deriving Repr, DecidableEq, Inhabited

/-- Go map read `labels[k]`: the zero value `""` when the key is absent. -/
def getLabel (labels : List (String × String)) (k : String) : String :=
  ((labels.find? (fun p => p.1 == k)).map (fun p => p.2)).getD ""

/-- `stackdriver.MetricDescriptor`: the fields the translator reads. -/
structure MetricDescriptor where
  type : String
  metricKind : String
  valueType : String
deriving Repr, DecidableEq, Inhabited

/-- `provider.MetricInfo`. -/
structure MetricInfo where
  groupResource : GroupResource
  metric : String
  namespaced : Bool
deriving Repr, DecidableEq, Inhabited

/-- The request produced by `createListTimeseriesRequest`: project path,
filter, interval endpoints from the clock, aligner and alignment period. -/
structure ListCall where
  project : String
  filter : String
  startTime : Int
  endTime : Int
  aligner : String
  alignmentPeriod : Int
deriving Repr, DecidableEq, Inhabited

/-- The `Translator` structure: immutable configuration. The Stackdriver
service handle is not modelled (requests are represented by `ListCall`);
the clock is modelled by the current time `now` in seconds, and the
REST mapper by a function from group-resource to kind that may fail. -/
structure Translator where
  config : GceConfig
  reqWindow : Int
  now : Int
  mapper : GroupResource → Except SdError String
  useNewResourceModel : Bool

/-- `oneOfMax`: maximum number of literals in a Stackdriver `one_of()`. -/
def oneOfMax : Nat := 100

/-- `getPodNames`: quoted pod names. -/
def getPodNames (list : List ObjectMeta) : List String :=
  list.map (fun item => goQuote item.name)

/-- `getNodeNames`: quoted node names. -/
def getNodeNames (list : List ObjectMeta) : List String :=
  list.map (fun item => goQuote item.name)

/-- `getResourceIDs`: quoted pod UIDs. -/
def getResourceIDs (list : List ObjectMeta) : List String :=
  list.map (fun item => goQuote item.uid)

/-- Go `strings.Join(parts, ",")`. -/
def joinComma : List String → String
  | [] => ""
  | [f] => f
  | f :: rest => f ++ "," ++ joinComma rest

/-- `joinFilters`: `strings.Join(filters, " AND ")`. -/
def joinFilters : List String → String
  | [] => ""
  | [f] => f
  | f :: rest => f ++ " AND " ++ joinFilters rest

/-- `filterForCluster`: project, cluster and location clauses. -/
def filterForCluster (t : Translator) : String :=
  "resource.label.project_id = " ++ goQuote t.config.project
    ++ " AND resource.label.cluster_name = " ++ goQuote t.config.cluster
    ++ " AND resource.label.location = " ++ goQuote t.config.place

/-- `filterForMetricPrefix`: `starts_with` clause over the metric type. -/
def filterForMetricPre (t : Translator) : String :=
  "metric.type = starts_with(\"" ++ t.config.metricsPre ++ "/\")"

/-- `filterForMetric`: metric-type equality clause. -/
def filterForMetric (metricName : String) : String :=
  "metric.type = " ++ goQuote metricName

/-- `filterForAnyPod`. -/
def filterForAnyPod : String := "resource.type = \"k8s_pod\""

/-- `filterForAnyNode`. -/
def filterForAnyNode : String := "resource.type = \"k8s_node\""

/-- `filterForAnyResource`. -/
def filterForAnyResource : String :=
  "resource.type = one_of(\"k8s_pod\",\"k8s_node\")"

/-- `filterForPods`: namespace clause plus equality / `one_of` over
`pod_name`; `glog.Fatalf` (modelled as `none`) on an empty list. The Go
receiver is unused. -/
def filterForPods (podNames : List String) (nspace : String) : Option String :=
  match podNames with
  | [] => none
  | [p] => some ("resource.label.namespace_name = " ++ goQuote nspace
      ++ " AND resource.label.pod_name = " ++ p)
  | ps => some ("resource.label.namespace_name = " ++ goQuote nspace
      ++ " AND resource.label.pod_name = one_of(" ++ joinComma ps ++ ")")

/-- `filterForNodes`: equality / `one_of` over `node_name`; `glog.Fatalf`
(modelled as `none`) on an empty list. The Go receiver is unused. -/
def filterForNodes (nodeNames : List String) : Option String :=
  match nodeNames with
  | [] => none
  | [n] => some ("resource.label.node_name = " ++ n)
  | ns => some ("resource.label.node_name = one_of(" ++ joinComma ns ++ ")")

/-- `legacyFilterForCluster`: project and cluster clauses (location is
skipped: it may be set incorrectly by Heapster for the old resource model)
plus the fixed `container_name = ""` clause. -/
def legacyFilterForCluster (t : Translator) : String :=
  "resource.label.project_id = " ++ goQuote t.config.project
    ++ " AND resource.label.cluster_name = " ++ goQuote t.config.cluster
    ++ " AND resource.label.container_name = \"\""

/-- `legacyFilterForAnyPod`. -/
def legacyFilterForAnyPod : String :=
  "resource.label.pod_id != \"\" AND resource.label.pod_id != \"machine\""

/-- `legacyFilterForPods`: equality / `one_of` over `pod_id`;
`glog.Fatalf` (modelled as `none`) on an empty list. The Go receiver is
unused. -/
def legacyFilterForPods (podIDs : List String) : Option String :=
  match podIDs with
  | [] => none
  | [p] => some ("resource.label.pod_id = " ++ p)
  | ps => some ("resource.label.pod_id = one_of(" ++ joinComma ps ++ ")")

/-- `createListTimeseriesRequest`. -/
def createListTimeseriesRequest (t : Translator) (filter : String) : ListCall :=
  { project := "projects/" ++ t.config.project
    filter := filter
    startTime := t.now - t.reqWindow
    endTime := t.now
    aligner := "ALIGN_NEXT_OLDER"
    alignmentPeriod := t.reqWindow }

/-- `GetSDReqForPods`: length checks, then the model-dependent filter. -/
def GetSDReqForPods (t : Translator) (podList : List ObjectMeta)
    (metricName : String) (nspace : String) : TransResult ListCall :=
  if podList.length = 0 then
    .err (.badRequest "No objects matched provided selector")
  else if oneOfMax < podList.length then
    .err (.internalError ("GetSDReqForPods called with "
      ++ toString podList.length ++ " pod list, but allowed limit is "
      ++ toString oneOfMax ++ " pods"))
  else if t.useNewResourceModel then
    match filterForPods (getPodNames podList) nspace with
    | none => .crash "createFilterForPods called with empty list of pod names"
    | some fp => .ok (createListTimeseriesRequest t (joinFilters
        [filterForMetric (t.config.metricsPre ++ "/" ++ metricName),
         filterForCluster t, fp, filterForAnyPod]))
  else
    match legacyFilterForPods (getResourceIDs podList) with
    | none => .crash "createFilterForIDs called with empty list of pod IDs"
    | some fp => .ok (createListTimeseriesRequest t (joinFilters
        [filterForMetric (t.config.metricsPre ++ "/" ++ metricName),
         legacyFilterForCluster t, fp]))

/-- `GetSDReqForNodes`: length checks, then the unsupported-operation check
for the legacy model, then the filter. -/
def GetSDReqForNodes (t : Translator) (nodeList : List ObjectMeta)
    (metricName : String) : TransResult ListCall :=
  if nodeList.length = 0 then
    .err (.badRequest "No objects matched provided selector")
  else if oneOfMax < nodeList.length then
    .err (.internalError ("GetSDReqForNodes called with "
      ++ toString nodeList.length ++ " node list, but allowed limit is "
      ++ toString oneOfMax ++ " nodes"))
  else if !t.useNewResourceModel then
    .err (.operationNotSupported
      "Root scoped metrics are not supported without new Stackdriver resource model enabled")
  else
    match filterForNodes (getNodeNames nodeList) with
    | none => .crash "createFilterForNodes called with empty list of node names"
    | some fn => .ok (createListTimeseriesRequest t (joinFilters
        [filterForMetric (t.config.metricsPre ++ "/" ++ metricName),
         filterForCluster t, fn, filterForAnyNode]))

/-- `metricKey`: derive the resource key of a time series from its resource
type and labels (current model), or read the `pod_id` label (legacy). -/
def metricKey (t : Translator) (timeSeries : TimeSeries) : Except SdError String :=
  if t.useNewResourceModel then
    if timeSeries.resource.type = "k8s_pod" then
      .ok (getLabel timeSeries.resource.labels "namespace_name" ++ ":"
        ++ getLabel timeSeries.resource.labels "pod_name")
    else if timeSeries.resource.type = "k8s_node" then
      .ok (":" ++ getLabel timeSeries.resource.labels "node_name")
    else
      .error (.internalError ("Stackdriver returned incorrect resource type "
        ++ goQuote timeSeries.resource.type))
  else
    .ok (getLabel timeSeries.resource.labels "pod_id")

/-- `resourceKey`: derive the resource key of a requested object. -/
def resourceKey (t : Translator) (object : ObjectMeta) : String :=
  if t.useNewResourceModel then object.nspace ++ ":" ++ object.name
  else object.uid

/-- The per-key aggregation map, keyed by resource key, holding exact
milli-unit quantities. -/
abbrev QuantityMap := List (String × ℤ)

/-- Read a key from the aggregation map. -/
def mapGet (m : QuantityMap) (k : String) : Option ℤ :=
  (m.find? (fun p => p.1 == k)).map (fun p => p.2)

/-- Write a key into the aggregation map. -/
def mapSet (m : QuantityMap) (k : String) (v : ℤ) : QuantityMap :=
  if (m.find? (fun p => p.1 == k)).isSome then
    m.map (fun p => if p.1 == k then (k, v) else p)
  else
    m ++ [(k, v)]

/-- The series loop of `getMetricValuesFromResponse`: check the point
count, derive the key, and accumulate the point into the map (integers
exactly, doubles as `int64(value * 1000)` milli-units; the `Int64Value`
case of the Go switch is tried first). -/
def aggSeries (t : Translator) : List TimeSeries → QuantityMap → Except SdError QuantityMap
  | [], acc => .ok acc
  | series :: rest, acc =>
    match series.points with
    | [point] =>
      match metricKey t series with
      | .error e => .error e
      | .ok name =>
        let currentQuantity := (mapGet acc name).getD 0
        match point.value.int64Value with
        | some i => aggSeries t rest (mapSet acc name (currentQuantity + 1000 * i))
        | none =>
          match point.value.doubleValue with
          | some d => aggSeries t rest
              (mapSet acc name (currentQuantity + goInt64OfRat (d * 1000)))
          | none => .error (.badRequest
              "Expected metric of type DoubleValue or Int64Value, but received another TypedValue")
    | _ => .error (.internalError
        ("Expected exactly one Point in TimeSeries from Stackdriver, but received "
          ++ toString series.points.length))

/-- `getMetricValuesFromResponse`: `MetricNotFound` on an empty series
list, else the aggregation loop. -/
def getMetricValuesFromResponse (t : Translator) (groupResource : GroupResource)
    (response : List TimeSeries) (metricName : String) : Except SdError QuantityMap :=
  if response.length < 1 then .error (.metricNotFound groupResource metricName)
  else aggSeries t response []

/-- `metricFor`: resolve the kind through the mapper and build one
metric value. `runtime.APIVersionInternal` is the literal `__internal`. -/
def metricFor (t : Translator) (value : ℤ) (groupResource : GroupResource)
    (nspace : String) (name : String) (metricName : String) :
    Except SdError MetricValue :=
  match t.mapper groupResource with
  | .error e => .error e
  | .ok kind => .ok
      { describedObject :=
          { apiVersion := groupResource.group ++ "/" ++ "__internal"
            kind := kind
            name := name
            nspace := nspace }
        metricName := metricName
        timestamp := t.now
        value := value }

/-- `metricsFor`: walk the caller's object list in order, skip objects
whose resource key is absent from the map, and emit a value for the rest. -/
def metricsFor (t : Translator) (values : QuantityMap)
    (groupResource : GroupResource) (metricName : String) :
    List ObjectMeta → Except SdError (List MetricValue)
  | [] => .ok []
  | item :: rest =>
    match mapGet values (resourceKey t item) with
    | none => metricsFor t values groupResource metricName rest
    | some q =>
      match metricFor t q groupResource item.nspace item.name metricName with
      | .error e => .error e
      | .ok v =>
        match metricsFor t values groupResource metricName rest with
        | .error e => .error e
        | .ok vs => .ok (v :: vs)

/-- `GetRespForMultipleObjects`: aggregate the response, then map over the
caller's object list. -/
def GetRespForMultipleObjects (t : Translator) (response : List TimeSeries)
    (list : List ObjectMeta) (groupResource : GroupResource)
    (metricName : String) : Except SdError (List MetricValue) :=
  match getMetricValuesFromResponse t groupResource response metricName with
  | .error e => .error e
  | .ok values => metricsFor t values groupResource metricName list

/-- The descriptor predicate of `GetMetricsFromSDDescriptorsResp`. -/
def keepDescriptor (t : Translator) (descriptor : MetricDescriptor) : Bool :=
  descriptor.metricKind == "GAUGE"
    && (descriptor.valueType == "INT64" || descriptor.valueType == "DOUBLE")
    && !((goTrimPre descriptor.type (t.config.metricsPre ++ "/")).contains '/')

/-- `GetMetricsFromSDDescriptorsResp`: keep gauge descriptors of integer or
floating type whose stripped name has no further path separator, exposing
each as a wildcard-resource namespaced metric. -/
def GetMetricsFromSDDescriptorsResp (t : Translator)
    (response : List MetricDescriptor) : List MetricInfo :=
  response.foldl (fun metrics descriptor =>
    if keepDescriptor t descriptor then
      metrics ++ [{ groupResource := { group := "", resource := "*" }
                    metric := goTrimPre descriptor.type (t.config.metricsPre ++ "/")
                    namespaced := true }]
    else metrics) []

end Provider

namespace Provider

/-! ### Concrete fixtures used in closed evaluations -/

/-- A concrete translator configured with the legacy resource model. -/
def tLegacy : Translator :=
  { config := { project := "p1", cluster := "c1", place := "us-central1-a",
                metricsPre := "custom.googleapis.com" }
    reqWindow := 300
    now := 1000
    mapper := fun _ => .ok "Pod"
    useNewResourceModel := false }

/-- A concrete translator configured with the current resource model. -/
def tCurrent : Translator := { tLegacy with useNewResourceModel := true }

/-- A concrete group resource used in closed evaluations. -/
def grPods : GroupResource := { group := "", resource := "pods" }

/-- A time series of resource type `k8s_pod` with one double-valued point. -/
def podSeriesD (d : ℚ) : TimeSeries :=
  { resource := { type := "k8s_pod"
                  labels := [("namespace_name", "ns1"), ("pod_name", "pod-a")] }
    points := [{ value := { int64Value := none, doubleValue := some d } }] }

/-! ### Helper lemmas -/

/-- `String.append` concatenates the underlying character lists. -/
theorem stringDataAppend (a b : String) : (a ++ b).data = a.data ++ b.data := by
  cases a; cases b; rfl

/-- Strings with equal character lists are equal. -/
theorem stringEqOfData (a b : String) (h : a.data = b.data) : a = b := by
  cases a; cases b; exact congrArg String.mk h

/-- `goQuote` is injective. -/
theorem goQuoteInj : Function.Injective goQuote := by
  intro a b h
  have hd := congrArg String.data h
  unfold goQuote at hd
  rw [stringDataAppend, stringDataAppend, stringDataAppend, stringDataAppend] at hd
  exact stringEqOfData a b (List.append_cancel_left (List.append_cancel_right hd))

/-- A pod filter built from a nonempty name list never hits the
`glog.Fatalf` branch. -/
theorem filterForPodsIsSome (x : String) (xs : List String) (nspace : String) :
    (filterForPods (x :: xs) nspace).isSome = true := by
  cases xs <;> rfl

/-- A node filter built from a nonempty name list never hits the
`glog.Fatalf` branch. -/
theorem filterForNodesIsSome (x : String) (xs : List String) :
    (filterForNodes (x :: xs)).isSome = true := by
  cases xs <;> rfl

/-- A legacy pod filter built from a nonempty id list never hits the
`glog.Fatalf` branch. -/
theorem legacyFilterForPodsIsSome (x : String) (xs : List String) :
    (legacyFilterForPods (x :: xs)).isSome = true := by
  cases xs <;> rfl

/-! ### C1 -/

/-- Does the outcome carry an operation-not-supported error? -/
def isOperationNotSupportedErr : TransResult ListCall → Bool
  | .err (.operationNotSupported _) => true
  | _ => false

/-- C1 (counterexample): on an empty node list under the legacy model,
`GetSDReqForNodes` fails with the bad-request error of the length check,
not with an operation-not-supported error: the length checks run first. -/
theorem c1_counterexample :
    GetSDReqForNodes tLegacy [] "my-metric"
      = .err (.badRequest "No objects matched provided selector")
    ∧ isOperationNotSupportedErr (GetSDReqForNodes tLegacy [] "my-metric") = false :=
  ⟨rfl, rfl⟩

/-- C1 (amended): under the legacy resource model, `GetSDReqForNodes`
fails with the operation-not-supported error for every node list of
accepted length (1 to 100); empty lists fail with the bad-request error
and lists longer than 100 with the internal batch error instead, because
the length checks run before the model check. -/
theorem c1_nodes_legacy_unsupported (t : Translator) (nodeList : List ObjectMeta)
    (metricName : String) (hm : t.useNewResourceModel = false)
    (h1 : 1 ≤ nodeList.length) (h2 : nodeList.length ≤ 100) :
    GetSDReqForNodes t nodeList metricName
      = .err (.operationNotSupported
          "Root scoped metrics are not supported without new Stackdriver resource model enabled") := by
  unfold GetSDReqForNodes
  rw [if_neg (by omega), if_neg (by unfold oneOfMax; omega), hm]
  rfl

/-- C1 (witness): the amended theorem applied to a concrete one-node list. -/
theorem c1_nodes_legacy_unsupported_witness :
    GetSDReqForNodes tLegacy [{ name := "node-1", nspace := "", uid := "" }] "my-metric"
      = .err (.operationNotSupported
          "Root scoped metrics are not supported without new Stackdriver resource model enabled") :=
  c1_nodes_legacy_unsupported tLegacy _ "my-metric" rfl (by decide) (by decide)

/-! ### C5 -/

/-- C5: for every translator (either model), a zero-length object list
makes `GetSDReqForPods` and `GetSDReqForNodes` fail with the bad-request
error, and a list longer than 100 makes them fail with the internal batch
error; both failures are decided by the leading length checks, before any
filter string is built (the result does not depend on the model or the
configuration). -/
theorem c5_length_checks (t : Translator) (list : List ObjectMeta)
    (metricName nspace : String) :
    (list.length = 0 →
      GetSDReqForPods t list metricName nspace
        = .err (.badRequest "No objects matched provided selector")
      ∧ GetSDReqForNodes t list metricName
        = .err (.badRequest "No objects matched provided selector"))
    ∧ (100 < list.length →
      GetSDReqForPods t list metricName nspace
        = .err (.internalError ("GetSDReqForPods called with "
            ++ toString list.length ++ " pod list, but allowed limit is "
            ++ toString oneOfMax ++ " pods"))
      ∧ GetSDReqForNodes t list metricName
        = .err (.internalError ("GetSDReqForNodes called with "
            ++ toString list.length ++ " node list, but allowed limit is "
            ++ toString oneOfMax ++ " nodes"))) := by
  constructor
  · intro h0
    constructor
    · unfold GetSDReqForPods; rw [if_pos h0]
    · unfold GetSDReqForNodes; rw [if_pos h0]
  · intro hbig
    constructor
    · unfold GetSDReqForPods
      rw [if_neg (by omega), if_pos (by unfold oneOfMax; omega)]
    · unfold GetSDReqForNodes
      rw [if_neg (by omega), if_pos (by unfold oneOfMax; omega)]

/-- C5 (witness): both length failures observed on concrete lists: the
empty list and a 101-element list. -/
theorem c5_length_checks_witness :
    GetSDReqForPods tCurrent [] "m" "ns1"
      = .err (.badRequest "No objects matched provided selector")
    ∧ GetSDReqForNodes tCurrent
        (List.replicate 101 { name := "n", nspace := "", uid := "" }) "m"
      = .err (.internalError ("GetSDReqForNodes called with "
          ++ toString (List.replicate 101
              ({ name := "n", nspace := "", uid := "" } : ObjectMeta)).length
          ++ " node list, but allowed limit is " ++ toString oneOfMax ++ " nodes")) :=
  ⟨((c5_length_checks tCurrent [] "m" "ns1").1 rfl).1,
   ((c5_length_checks tCurrent _ "m" "ns1").2 (by simp)).2⟩

/-! ### C7 -/

/-- C7: round trip under the current model. The resource key derived by
`resourceKey` from the pod object with namespace `ns1` and name `pod-a`,
and the key derived by `metricKey` from a matching `k8s_pod` response
series labelled `namespace_name = ns1`, `pod_name = pod-a`, are both the
string `ns1:pod-a`; the filter built for that pod carries the same
namespace and name literals. -/
theorem c7_roundtrip :
    resourceKey tCurrent { name := "pod-a", nspace := "ns1", uid := "uid-a" } = "ns1:pod-a"
    ∧ metricKey tCurrent (podSeriesD 1) = .ok "ns1:pod-a"
    ∧ filterForPods (getPodNames [{ name := "pod-a", nspace := "ns1", uid := "uid-a" }]) "ns1"
        = some "resource.label.namespace_name = \"ns1\" AND resource.label.pod_name = \"pod-a\"" :=
  ⟨rfl, rfl, rfl⟩

end Provider

namespace Provider

/-! ### C3 -/

/-- C3: for every pod list of accepted length (1 to 100) under the legacy
model, the built request carries exactly the filter made of: the
metric-type equality clause; project and cluster scoping with no location
clause; the fixed `container_name = ""` clause that excludes the synthetic
container-level and machine-level aggregate rows of the old Heapster
schema; and an equality (length 1) or `one_of` (length more than 1) clause
over the `pod_id` label. -/
theorem c3_legacy_pod_filter (t : Translator) (podList : List ObjectMeta)
    (metricName nspace : String) (hm : t.useNewResourceModel = false)
    (h1 : 1 ≤ podList.length) (h2 : podList.length ≤ 100) :
    GetSDReqForPods t podList metricName nspace = .ok
      { project := "projects/" ++ t.config.project
        filter := joinFilters
          ["metric.type = " ++ goQuote (t.config.metricsPre ++ "/" ++ metricName),
           "resource.label.project_id = " ++ goQuote t.config.project
             ++ " AND resource.label.cluster_name = " ++ goQuote t.config.cluster
             ++ " AND resource.label.container_name = \"\"",
           if podList.length = 1
             then "resource.label.pod_id = " ++ goQuote podList.headI.uid
             else "resource.label.pod_id = one_of("
               ++ joinComma (getResourceIDs podList) ++ ")"]
        startTime := t.now - t.reqWindow
        endTime := t.now
        aligner := "ALIGN_NEXT_OLDER"
        alignmentPeriod := t.reqWindow } := by
  cases podList with
  | nil => simp at h1
  | cons a rest =>
    cases rest with
    | nil =>
      unfold GetSDReqForPods
      rw [hm]
      rfl
    | cons b rest2 =>
      unfold GetSDReqForPods
      rw [if_neg (by simp), if_neg (by unfold oneOfMax; omega), hm]
      rw [if_neg (show ¬((a :: b :: rest2).length = 1) by simp)]
      rfl

/-- C3 (witness): the legacy filter built for a concrete two-pod list. -/
theorem c3_legacy_pod_filter_witness :
    GetSDReqForPods tLegacy
      [{ name := "pod-a", nspace := "ns1", uid := "uid-a" },
       { name := "pod-b", nspace := "ns1", uid := "uid-b" }] "my-metric" "ns1"
      = .ok
        { project := "projects/p1"
          filter := "metric.type = \"custom.googleapis.com/my-metric\""
            ++ " AND resource.label.project_id = \"p1\""
            ++ " AND resource.label.cluster_name = \"c1\""
            ++ " AND resource.label.container_name = \"\""
            ++ " AND resource.label.pod_id = one_of(\"uid-a\",\"uid-b\")"
          startTime := 700
          endTime := 1000
          aligner := "ALIGN_NEXT_OLDER"
          alignmentPeriod := 300 } := by
  rw [c3_legacy_pod_filter tLegacy _ "my-metric" "ns1" rfl (by decide) (by decide)]
  rfl

/-! ### C10 -/

/-- C10: for every object list of accepted length (1 to 100), neither
`GetSDReqForPods` (either model) nor `GetSDReqForNodes` can reach the
process-terminating `glog.Fatalf` branches of the filter builders
(modelled as the `crash` outcome): the empty-list case is rejected with a
returned error before any filter builder runs. -/
theorem c10_fatalf_unreachable (t : Translator) (list : List ObjectMeta)
    (metricName nspace : String) (h1 : 1 ≤ list.length) (h2 : list.length ≤ 100) :
    (∀ msg, GetSDReqForPods t list metricName nspace ≠ .crash msg)
    ∧ (∀ msg, GetSDReqForNodes t list metricName ≠ .crash msg) := by
  cases list with
  | nil => simp at h1
  | cons a rest =>
    constructor
    · intro msg h
      unfold GetSDReqForPods at h
      rw [if_neg (by simp), if_neg (by unfold oneOfMax; omega)] at h
      cases hb : t.useNewResourceModel
      · rw [hb] at h
        have hfp := legacyFilterForPodsIsSome (goQuote a.uid) (getResourceIDs rest)
        obtain ⟨fp, hfp'⟩ := Option.isSome_iff_exists.mp hfp
        rw [show getResourceIDs (a :: rest)
            = goQuote a.uid :: getResourceIDs rest from rfl, hfp'] at h
        simp at h
      · rw [hb] at h
        have hfp := filterForPodsIsSome (goQuote a.name) (getPodNames rest) nspace
        obtain ⟨fp, hfp'⟩ := Option.isSome_iff_exists.mp hfp
        rw [show getPodNames (a :: rest)
            = goQuote a.name :: getPodNames rest from rfl, hfp'] at h
        simp at h
    · intro msg h
      unfold GetSDReqForNodes at h
      rw [if_neg (by simp), if_neg (by unfold oneOfMax; omega)] at h
      cases hb : t.useNewResourceModel
      · rw [hb] at h
        simp at h
      · rw [hb] at h
        have hfn := filterForNodesIsSome (goQuote a.name) (getNodeNames rest)
        obtain ⟨fn, hfn'⟩ := Option.isSome_iff_exists.mp hfn
        rw [show getNodeNames (a :: rest)
            = goQuote a.name :: getNodeNames rest from rfl, hfn'] at h
        simp at h

/-- C10 (witness): no crash outcome on a concrete one-pod list. -/
theorem c10_fatalf_unreachable_witness :
    GetSDReqForPods tCurrent [{ name := "pod-a", nspace := "ns1", uid := "uid-a" }] "m" "ns1"
      ≠ .crash "createFilterForPods called with empty list of pod names" :=
  (c10_fatalf_unreachable tCurrent _ "m" "ns1" (by decide) (by decide)).1 _

end Provider

namespace Provider

/-! ### C6 -/

/-- C6: for every valid object list of length 1 to 100 whose names (or
uids, for the legacy pod path) are pairwise distinct, the rendered literal
of each object occurs exactly once among the literals joined into the
filter clause, and the clause wraps the literals in `one_of(...)` exactly
when the list has more than one element: a one-element list produces a
plain equality clause. This covers `filterForPods` and `filterForNodes`
(current model, applied to object names) and `legacyFilterForPods`
(legacy model, applied to object uids). -/
theorem c6_literals_once_and_one_of (names : List String) (nspace : String)
    (h1 : 1 ≤ names.length) (h2 : names.length ≤ 100) (hnd : names.Nodup) :
    (∀ n ∈ names, (names.map goQuote).count (goQuote n) = 1)
    ∧ (∀ a, names = [a] →
        filterForPods (names.map goQuote) nspace
          = some ("resource.label.namespace_name = " ++ goQuote nspace
              ++ " AND resource.label.pod_name = " ++ goQuote a)
        ∧ filterForNodes (names.map goQuote)
          = some ("resource.label.node_name = " ++ goQuote a)
        ∧ legacyFilterForPods (names.map goQuote)
          = some ("resource.label.pod_id = " ++ goQuote a))
    ∧ (1 < names.length →
        filterForPods (names.map goQuote) nspace
          = some ("resource.label.namespace_name = " ++ goQuote nspace
              ++ " AND resource.label.pod_name = one_of("
              ++ joinComma (names.map goQuote) ++ ")")
        ∧ filterForNodes (names.map goQuote)
          = some ("resource.label.node_name = one_of("
              ++ joinComma (names.map goQuote) ++ ")")
        ∧ legacyFilterForPods (names.map goQuote)
          = some ("resource.label.pod_id = one_of("
              ++ joinComma (names.map goQuote) ++ ")")) := by
  refine ⟨?_, ?_, ?_⟩
  · intro n hn
    rw [List.count_map_of_injective names goQuote goQuoteInj n]
    exact List.count_eq_one_of_mem hnd hn
  · rintro a rfl
    exact ⟨rfl, rfl, rfl⟩
  · intro hlen
    cases names with
    | nil => simp at h1
    | cons a rest =>
      cases rest with
      | nil => simp at hlen
      | cons b rest2 => exact ⟨rfl, rfl, rfl⟩

/-- C6 (witness): the filters built from the concrete two-name list
`pod-1`, `pod-2`: each quoted literal occurs once, and the clauses use
`one_of`. -/
theorem c6_literals_once_and_one_of_witness :
    (["pod-1", "pod-2"].map goQuote).count (goQuote "pod-1") = 1
    ∧ filterForPods (["pod-1", "pod-2"].map goQuote) "ns1"
      = some "resource.label.namespace_name = \"ns1\" AND resource.label.pod_name = one_of(\"pod-1\",\"pod-2\")" := by
  have h := c6_literals_once_and_one_of ["pod-1", "pod-2"] "ns1"
    (by decide) (by decide) (by decide)
  refine ⟨h.1 "pod-1" (by decide), ?_⟩
  rw [(h.2.2 (by decide)).1]
  rfl

end Provider

namespace Provider

/-! ### C4 -/

/-- Every error returned by `metricKey` is an internal error. -/
theorem metricKeyErrorInternal (t : Translator) (s : TimeSeries) (e : SdError)
    (h : metricKey t s = .error e) : ∃ m, e = .internalError m := by
  unfold metricKey at h
  split_ifs at h
  exact ⟨_, (Except.error.inj h).symm⟩

/-- If some series of a well-formed response (one integer point each) has
a resource type the configured model does not recognize, the aggregation
loop fails with an internal error. -/
theorem aggSeriesInternalOfBadType (t : Translator)
    (hm : t.useNewResourceModel = true) (ts : TimeSeries)
    (ht1 : ts.resource.type ≠ "k8s_pod") (ht2 : ts.resource.type ≠ "k8s_node") :
    ∀ (response : List TimeSeries) (acc : QuantityMap),
      (∀ s ∈ response, ∃ p i, s.points = [p] ∧ p.value.int64Value = some i) →
      ts ∈ response →
      ∃ m, aggSeries t response acc = .error (.internalError m) := by
  intro response
  induction response with
  | nil => intro acc _ hmem; cases hmem
  | cons s rest ih =>
    intro acc hwf hmem
    obtain ⟨p, i, hp, hi⟩ := hwf s (List.mem_cons_self s rest)
    rcases List.mem_cons.mp hmem with rfl | hmem'
    · refine ⟨"Stackdriver returned incorrect resource type "
        ++ goQuote ts.resource.type, ?_⟩
      have hk : metricKey t ts = .error (.internalError
          ("Stackdriver returned incorrect resource type " ++ goQuote ts.resource.type)) := by
        unfold metricKey
        rw [hm, if_pos rfl, if_neg ht1, if_neg ht2]
      simp [aggSeries, hp, hk]
    · cases hke : metricKey t s with
      | error e =>
        obtain ⟨m, rfl⟩ := metricKeyErrorInternal t s e hke
        exact ⟨m, by simp [aggSeries, hp, hke]⟩
      | ok name =>
        obtain ⟨m, hrec⟩ := ih (mapSet acc name (((mapGet acc name).getD 0) + 1000 * i))
          (fun s' hs' => hwf s' (List.mem_cons_of_mem s hs')) hmem'
        refine ⟨m, ?_⟩
        simp only [aggSeries, hp, hke, hi]
        exact hrec

/-- C4: the resource key of a response series is derived per the
configured model — `namespace_name:pod_name` for `k8s_pod` and
`:node_name` for `k8s_node` under the current model, the `pod_id` label
under the legacy model — and when a series in an otherwise well-formed
response has a resource type the current model does not recognize,
`getMetricValuesFromResponse` fails with an internal error. -/
theorem c4_resource_keys (t : Translator) (gr : GroupResource) (mn : String)
    (ts : TimeSeries) (response : List TimeSeries) :
    (t.useNewResourceModel = true → ts.resource.type = "k8s_pod" →
      metricKey t ts = .ok (getLabel ts.resource.labels "namespace_name"
        ++ ":" ++ getLabel ts.resource.labels "pod_name"))
    ∧ (t.useNewResourceModel = true → ts.resource.type = "k8s_node" →
      metricKey t ts = .ok (":" ++ getLabel ts.resource.labels "node_name"))
    ∧ (t.useNewResourceModel = false →
      metricKey t ts = .ok (getLabel ts.resource.labels "pod_id"))
    ∧ (t.useNewResourceModel = true →
      ts.resource.type ≠ "k8s_pod" → ts.resource.type ≠ "k8s_node" →
      (∀ s ∈ response, ∃ p i, s.points = [p] ∧ p.value.int64Value = some i) →
      ts ∈ response →
      ∃ m, getMetricValuesFromResponse t gr response mn
        = .error (.internalError m)) := by
  refine ⟨?_, ?_, ?_, ?_⟩
  · intro hm hty
    unfold metricKey
    rw [hm, if_pos rfl, if_pos hty]
  · intro hm hty
    unfold metricKey
    rw [hm, if_pos rfl]
    rcases eq_or_ne ts.resource.type "k8s_pod" with hp | hp
    · rw [hp] at hty
      exact absurd hty (by decide)
    · rw [if_neg hp, if_pos hty]
  · intro hm
    unfold metricKey
    rw [hm]
    rfl
  · intro hm ht1 ht2 hwf hmem
    have hne : response ≠ [] := by
      intro hnil; rw [hnil] at hmem; cases hmem
    obtain ⟨m, hagg⟩ := aggSeriesInternalOfBadType t hm ts ht1 ht2 response [] hwf hmem
    refine ⟨m, ?_⟩
    unfold getMetricValuesFromResponse
    rw [if_neg (by have := List.length_pos.mpr hne; omega)]
    exact hagg

/-- A time series whose resource type neither resource model treats as a
pod or node schema, carrying one integer point. -/
def badTypeSeries : TimeSeries :=
  { resource := { type := "gke_container", labels := [("pod_id", "uid-a")] }
    points := [{ value := { int64Value := some 7, doubleValue := none } }] }

/-- C4 (witness): concrete keys under both models and the internal-error
failure on a response holding a series of unrecognized type. -/
theorem c4_resource_keys_witness :
    metricKey tCurrent (podSeriesD 1) = .ok "ns1:pod-a"
    ∧ metricKey tLegacy badTypeSeries = .ok "uid-a"
    ∧ ∃ m, getMetricValuesFromResponse tCurrent grPods [badTypeSeries] "my-metric"
        = .error (.internalError m) := by
  refine ⟨?_, ?_, ?_⟩
  · rw [(c4_resource_keys tCurrent grPods "my-metric" (podSeriesD 1) []).1 rfl rfl]
    rfl
  · rw [(c4_resource_keys tLegacy grPods "my-metric" badTypeSeries []).2.2.1 rfl]
    rfl
  · exact (c4_resource_keys tCurrent grPods "my-metric" badTypeSeries
      [badTypeSeries]).2.2.2 rfl (by decide) (by decide)
      (by
        intro s hs
        rw [List.mem_singleton] at hs
        subst hs
        exact ⟨_, 7, rfl, rfl⟩)
      (List.mem_singleton.mpr rfl)

end Provider

namespace Provider

/-! ### C8 -/

/-- When the kind mapping succeeds, `metricsFor` is the `filterMap` over
the caller's object list that keeps exactly the objects whose resource key
is present in the aggregate map. -/
theorem metricsForEqFilterMap (t : Translator) (values : QuantityMap)
    (gr : GroupResource) (mn kind : String) (hmap : t.mapper gr = .ok kind) :
    ∀ list : List ObjectMeta,
      metricsFor t values gr mn list
        = .ok (list.filterMap (fun item =>
            (mapGet values (resourceKey t item)).map (fun q =>
              { describedObject :=
                  { apiVersion := gr.group ++ "/" ++ "__internal"
                    kind := kind
                    name := item.name
                    nspace := item.nspace }
                metricName := mn
                timestamp := t.now
                value := q }))) := by
  intro list
  induction list with
  | nil => rfl
  | cons item rest ih =>
    simp only [metricsFor, List.filterMap_cons]
    cases hg : mapGet values (resourceKey t item) with
    | none => simpa [hg] using ih
    | some q =>
      simp only [metricFor, hmap, ih]
      simp

/-- C8: for every caller-supplied object list and every aggregated value
map, the batch path emits metric values in the caller's list order,
includes exactly those objects whose derived resource key is present in
the map (with the mapped quantity), and omits objects with no matching
key — it neither zero-fills them nor fails the batch because of them. -/
theorem c8_batch_order_and_omission (t : Translator) (response : List TimeSeries)
    (list : List ObjectMeta) (gr : GroupResource) (mn kind : String)
    (values : QuantityMap)
    (hresp : getMetricValuesFromResponse t gr response mn = .ok values)
    (hmap : t.mapper gr = .ok kind) :
    GetRespForMultipleObjects t response list gr mn
      = .ok (list.filterMap (fun item =>
          (mapGet values (resourceKey t item)).map (fun q =>
            { describedObject :=
                { apiVersion := gr.group ++ "/" ++ "__internal"
                  kind := kind
                  name := item.name
                  nspace := item.nspace }
              metricName := mn
              timestamp := t.now
              value := q }))) := by
  unfold GetRespForMultipleObjects
  rw [hresp]
  exact metricsForEqFilterMap t values gr mn kind hmap list

/-- A time series of resource type `k8s_pod` with one integer point. -/
def podSeriesI (nspace name : String) (i : ℤ) : TimeSeries :=
  { resource := { type := "k8s_pod"
                  labels := [("namespace_name", nspace), ("pod_name", name)] }
    points := [{ value := { int64Value := some i, doubleValue := none } }] }

/-- C8 (witness): a concrete batch of three pods where only the first and
third have matching series; both are emitted in order and the unmatched
second pod is omitted. -/
theorem c8_batch_order_and_omission_witness :
    GetRespForMultipleObjects tCurrent
      [podSeriesI "ns1" "pod-a" 3, podSeriesI "ns1" "pod-c" 5]
      [{ name := "pod-a", nspace := "ns1", uid := "ua" },
       { name := "pod-b", nspace := "ns1", uid := "ub" },
       { name := "pod-c", nspace := "ns1", uid := "uc" }]
      grPods "my-metric"
      = .ok
        [{ describedObject := { apiVersion := "/__internal", kind := "Pod"
                                name := "pod-a", nspace := "ns1" }
           metricName := "my-metric", timestamp := 1000, value := 3000 },
         { describedObject := { apiVersion := "/__internal", kind := "Pod"
                                name := "pod-c", nspace := "ns1" }
           metricName := "my-metric", timestamp := 1000, value := 5000 }] := by
  rw [c8_batch_order_and_omission tCurrent
    [podSeriesI "ns1" "pod-a" 3, podSeriesI "ns1" "pod-c" 5]
    [{ name := "pod-a", nspace := "ns1", uid := "ua" },
     { name := "pod-b", nspace := "ns1", uid := "ub" },
     { name := "pod-c", nspace := "ns1", uid := "uc" }]
    grPods "my-metric" "Pod"
    [("ns1:pod-a", 3000), ("ns1:pod-c", 5000)] rfl rfl]
  rfl

/-! ### C9 -/

/-- The descriptor fold is the `filterMap` of its per-descriptor step. -/
theorem getMetricsEqFilterMap (t : Translator) (response : List MetricDescriptor) :
    GetMetricsFromSDDescriptorsResp t response
      = response.filterMap (fun descriptor =>
          if keepDescriptor t descriptor then
            some { groupResource := { group := "", resource := "*" }
                   metric := goTrimPre descriptor.type (t.config.metricsPre ++ "/")
                   namespaced := true }
          else none) := by
  unfold GetMetricsFromSDDescriptorsResp
  suffices h : ∀ (resp : List MetricDescriptor) (acc : List MetricInfo),
      resp.foldl (fun metrics descriptor =>
        if keepDescriptor t descriptor then
          metrics ++ [{ groupResource := { group := "", resource := "*" }
                        metric := goTrimPre descriptor.type (t.config.metricsPre ++ "/")
                        namespaced := true }]
        else metrics) acc
      = acc ++ resp.filterMap (fun descriptor =>
          if keepDescriptor t descriptor then
            some { groupResource := { group := "", resource := "*" }
                   metric := goTrimPre descriptor.type (t.config.metricsPre ++ "/")
                   namespaced := true }
          else none) by
    simpa using h response []
  intro resp
  induction resp with
  | nil => intro acc; simp
  | cons d rest ih =>
    intro acc
    by_cases hk : keepDescriptor t d
    · simp [hk, ih, List.filterMap_cons]
    · simp [hk, ih, List.filterMap_cons]

/-- C9: a metric info is produced by `GetMetricsFromSDDescriptorsResp`
exactly when the response holds a descriptor of gauge kind, integer or
floating value type, whose type name contains no `/` separator after
stripping the configured metrics prefix; the produced info carries the
empty group, the wildcard resource, the stripped name and the namespaced
flag. Cumulative-kind, string-valued and separator-containing descriptors
are thereby excluded. -/
theorem c9_descriptor_filtering (t : Translator)
    (response : List MetricDescriptor) (m : MetricInfo) :
    m ∈ GetMetricsFromSDDescriptorsResp t response
      ↔ ∃ d ∈ response,
          (d.metricKind = "GAUGE"
            ∧ (d.valueType = "INT64" ∨ d.valueType = "DOUBLE")
            ∧ (goTrimPre d.type (t.config.metricsPre ++ "/")).contains '/' = false)
          ∧ m = { groupResource := { group := "", resource := "*" }
                  metric := goTrimPre d.type (t.config.metricsPre ++ "/")
                  namespaced := true } := by
  rw [getMetricsEqFilterMap]
  simp only [List.mem_filterMap, Option.ite_none_right_eq_some, Option.some.injEq,
    keepDescriptor, Bool.and_eq_true, Bool.or_eq_true, beq_iff_eq, Bool.not_eq_true']
  constructor
  · rintro ⟨d, hd, ⟨⟨hk, hv⟩, hc⟩, hm⟩
    exact ⟨d, hd, ⟨hk, hv, hc⟩, hm.symm⟩
  · rintro ⟨d, hd, ⟨hk, hv, hc⟩, hm⟩
    exact ⟨d, hd, ⟨⟨hk, hv⟩, hc⟩, hm.symm⟩

end Provider

namespace Provider

/-! ### C2 -/

/-- Aggregating two double-valued series carrying the same resource key:
each contribution is `int64(value * 1000)` milli-units and the two
truncated contributions are added. -/
theorem aggTwoDoublesSameKey (t : Translator) (gr : GroupResource) (mn k : String)
    (s1 s2 : TimeSeries) (p1 p2 : Point) (d1 d2 : ℚ)
    (hp1 : s1.points = [p1]) (hi1 : p1.value.int64Value = none)
    (hd1 : p1.value.doubleValue = some d1)
    (hp2 : s2.points = [p2]) (hi2 : p2.value.int64Value = none)
    (hd2 : p2.value.doubleValue = some d2)
    (hk1 : metricKey t s1 = .ok k) (hk2 : metricKey t s2 = .ok k) :
    getMetricValuesFromResponse t gr [s1, s2] mn
      = .ok [(k, goInt64OfRat (d1 * 1000) + goInt64OfRat (d2 * 1000))] := by
  unfold getMetricValuesFromResponse
  rw [if_neg (by simp)]
  simp [aggSeries, hp1, hp2, hi1, hd1, hi2, hd2, hk1, hk2, mapGet, mapSet, List.find?]

/-- Aggregating two integer-valued series carrying the same resource key:
each contribution is `1000 * value` milli-units and the contributions are
added exactly. -/
theorem aggTwoIntsSameKey (t : Translator) (gr : GroupResource) (mn k : String)
    (s1 s2 : TimeSeries) (p1 p2 : Point) (i1 i2 : ℤ)
    (hp1 : s1.points = [p1]) (hi1 : p1.value.int64Value = some i1)
    (hp2 : s2.points = [p2]) (hi2 : p2.value.int64Value = some i2)
    (hk1 : metricKey t s1 = .ok k) (hk2 : metricKey t s2 = .ok k) :
    getMetricValuesFromResponse t gr [s1, s2] mn
      = .ok [(k, 1000 * i1 + 1000 * i2)] := by
  unfold getMetricValuesFromResponse
  rw [if_neg (by simp)]
  simp [aggSeries, hp1, hp2, hi1, hi2, hk1, hk2, mapGet, mapSet, List.find?]

/-- C2 (counterexample): two floating contributions `1.0005` and `1.0004`
to the same resource key aggregate to exactly 2000 milli-units (the value
2.000): each contribution is truncated toward zero to 1000 milli-units by
the `int64(value * 1000)` conversion. The claimed sum — 2.0009 kept at
millesimal precision, i.e. 2001 milli-units at the nearest thousandth —
is not produced. -/
theorem c2_counterexample :
    getMetricValuesFromResponse tCurrent grPods
      [podSeriesD (10005 / 10000), podSeriesD (10004 / 10000)] "my-metric"
      = .ok [("ns1:pod-a", 2000)]
    ∧ (2000 : ℤ) ≠ 2001 := by
  have e1 : goInt64OfRat ((10005 / 10000 : ℚ) * 1000) = 1000 := by
    norm_num [goInt64OfRat]
  have e2 : goInt64OfRat ((10004 / 10000 : ℚ) * 1000) = 1000 := by
    norm_num [goInt64OfRat]
  have h := aggTwoDoublesSameKey tCurrent grPods "my-metric" "ns1:pod-a"
    (podSeriesD (10005 / 10000)) (podSeriesD (10004 / 10000))
    { value := { int64Value := none, doubleValue := some (10005 / 10000) } }
    { value := { int64Value := none, doubleValue := some (10004 / 10000) } }
    (10005 / 10000) (10004 / 10000) rfl rfl rfl rfl rfl rfl rfl rfl
  rw [e1, e2] at h
  exact ⟨h, by decide⟩

/-- C2 (amended): integer samples accumulate exactly (two integer
contributions `i1`, `i2` to one key yield `1000*i1 + 1000*i2`
milli-units); floating samples are scaled by 1000 and truncated toward
zero to whole milli-units before accumulating, so the contributions
`1.0005` and `1.0004` each truncate to 1000 milli-units and their sum is
exactly 2.000 — millesimal fixed point with truncation, not a rounding to
the nearest thousandth. -/
theorem c2_millesimal_truncation (t : Translator) (gr : GroupResource) (mn k : String) :
    (∀ (s1 s2 : TimeSeries) (p1 p2 : Point) (d1 d2 : ℚ),
      s1.points = [p1] → p1.value.int64Value = none → p1.value.doubleValue = some d1 →
      s2.points = [p2] → p2.value.int64Value = none → p2.value.doubleValue = some d2 →
      metricKey t s1 = .ok k → metricKey t s2 = .ok k →
      getMetricValuesFromResponse t gr [s1, s2] mn
        = .ok [(k, goInt64OfRat (d1 * 1000) + goInt64OfRat (d2 * 1000))])
    ∧ (∀ (s1 s2 : TimeSeries) (p1 p2 : Point) (i1 i2 : ℤ),
      s1.points = [p1] → p1.value.int64Value = some i1 →
      s2.points = [p2] → p2.value.int64Value = some i2 →
      metricKey t s1 = .ok k → metricKey t s2 = .ok k →
      getMetricValuesFromResponse t gr [s1, s2] mn
        = .ok [(k, 1000 * i1 + 1000 * i2)])
    ∧ goInt64OfRat ((10005 / 10000 : ℚ) * 1000) = 1000
    ∧ goInt64OfRat ((10004 / 10000 : ℚ) * 1000) = 1000 := by
  refine ⟨?_, ?_, ?_, ?_⟩
  · intro s1 s2 p1 p2 d1 d2 hp1 hi1 hd1 hp2 hi2 hd2 hk1 hk2
    exact aggTwoDoublesSameKey t gr mn k s1 s2 p1 p2 d1 d2 hp1 hi1 hd1 hp2 hi2 hd2 hk1 hk2
  · intro s1 s2 p1 p2 i1 i2 hp1 hi1 hp2 hi2 hk1 hk2
    exact aggTwoIntsSameKey t gr mn k s1 s2 p1 p2 i1 i2 hp1 hi1 hp2 hi2 hk1 hk2
  · norm_num [goInt64OfRat]
  · norm_num [goInt64OfRat]

/-- C2 (witness): the amended theorem applied to two concrete integer
series (values 3 and 4 on one key, aggregating to exactly 7000
milli-units). -/
theorem c2_millesimal_truncation_witness :
    getMetricValuesFromResponse tCurrent grPods
      [podSeriesI "ns1" "pod-a" 3, podSeriesI "ns1" "pod-a" 4] "my-metric"
      = .ok [("ns1:pod-a", 1000 * 3 + 1000 * 4)] :=
  (c2_millesimal_truncation tCurrent grPods "my-metric" "ns1:pod-a").2.1
    (podSeriesI "ns1" "pod-a" 3) (podSeriesI "ns1" "pod-a" 4)
    { value := { int64Value := some 3, doubleValue := none } }
    { value := { int64Value := some 4, doubleValue := none } }
    3 4 rfl rfl rfl rfl rfl rfl

end Provider
